import Mathlib

/-!
Verification of the `hello_viem` front end: a permit-token deposit page
(EIP-2612 permit signing + `depositWithPermit`), a plain ERC-20 transfer
page, and their shared input-validation and explorer-link helpers.

The TypeScript pages are shallowly embedded: JS strings become `String`
(or their `List Char` data where sliced), JS `bigint` becomes `Int`,
JS `number` chain ids become `Nat`, `undefined`/`null` become `Option`,
and the asynchronous wallet/RPC environment becomes an explicit record of
the results each external call would return.  Handlers are modelled as
pure functions from a page state and such an environment to a trace of
the externally visible actions they perform plus the resulting UI state.
-/

namespace HelloViem

/-! ### JS-style primitive helpers -/

/-- Value of a decimal-digit character list read left to right, with the
JS convention that the empty string converts to `0` (`BigInt('') = 0n`). -/
def digitsToNat (l : List Char) : Nat :=
  l.foldl (fun acc c => acc * 10 + (c.toNat - 48)) 0

/-- Drop trailing `'0'` characters, as `fraction.replace(/(0+)$/, '')` does. -/
def trimTrailingZeros (l : List Char) : List Char :=
  (l.reverse.dropWhile (fun c => c = '0')).reverse

/-- Whether a character list matches the decimal-number shape
`^(-?)([0-9]*)\.?([0-9]*)$` that viem's `parseUnits` accepts. -/
def decimalShape (l : List Char) : Bool :=
  let body := match l with
    | '-' :: rest => rest
    | _ => l
  match body.dropWhile Char.isDigit with
  | [] => true
  | '.' :: rest => rest.all Char.isDigit
  | _ => false

/-- Split a character list at its first `'.'`, returning the integer part
and, when a dot is present, the fractional part.  For inputs accepted by
`decimalShape` there is at most one dot, so this agrees with JS
`value.split('.')` destructured to its first two components. -/
def splitAtDot : List Char → List Char × Option (List Char)
  | [] => ([], none)
  | '.' :: rest => ([], some rest)
  | c :: rest =>
    let (i, f) := splitAtDot rest
    (c :: i, f)

/-- Whether `Math.round` applied to `0.<l>` (a digit list read as a decimal
fraction) rounds up to `1`: exactly when the leading digit is `5` or more.
`Math.round(NaN)` (empty fraction) does not round up. -/
def roundsHalfUp (l : List Char) : Bool :=
  match l.head? with
  | some c => decide ('5' ≤ c)
  | none => false

/-- Model of viem's `parseUnits(value, decimals)` (viem 2.x), which both
pages call to turn the typed amount string into a scaled `bigint`; `none`
models the thrown `InvalidDecimalNumberError`, which the pages catch.

The implementation mirrors the library source: reject strings failing the
regex `^(-?)([0-9]*)\.?([0-9]*)$`; split at the dot; strip a leading `-`;
trim trailing zeros of the fraction; then pad or round the fraction to
`decimals` digits (half-up, with carry into the integer part when a
fraction of all nines rounds over).  The library computes the rounding
digit through `Math.round(Number(...))`; this model uses exact decimal
half-up rounding instead, which agrees except on fractions that need more
significant digits than a binary double carries. -/
def parseUnits (value : String) (decimals : Nat) : Option Int :=
  let chars := value.toList
  if ¬ decimalShape chars then none
  else
    let (integer0, fraction0) := splitAtDot chars
    let negative := integer0.head? = some '-'
    let integer := if negative then integer0.tail else integer0
    let fraction := trimTrailingZeros (fraction0.getD ['0'])
    let i := digitsToNat integer
    let mag : Nat :=
      if decimals = 0 then
        i + (if roundsHalfUp fraction then 1 else 0)
      else if fraction.length ≤ decimals then
        i * 10 ^ decimals + digitsToNat fraction * 10 ^ (decimals - fraction.length)
      else
        let left := fraction.take (decimals - 1)
        let unit := (fraction.getD (decimals - 1) '0').toNat - 48
        let right := fraction.drop decimals
        let rounded := unit + (if roundsHalfUp right then 1 else 0)
        if rounded > 9 then
          let lv := digitsToNat left + 1
          if lv = 10 ^ (decimals - 1) then (i + 1) * 10 ^ decimals
          else i * 10 ^ decimals + lv * 10
        else
          i * 10 ^ decimals + (digitsToNat left * 10 + rounded)
    some (if negative then -(mag : Int) else (mag : Int))

/-! ### Shared amount validation

Both pages derive `amountAsBigInt` from the raw input string and the token
decimals, and derive an error message from it and the fetched balance.
`TransferPage` names these `amountAsBigInt` and `amountError`;
`PermitTokenPage` names them `depositAmountBigInt` and
`depositAmountError`; the logic is identical (the deposit page reads the
balance from `tokenBalanceData.value`, modelled here as the same
`Option Int`). -/

/-- `useMemo` body computing the scaled amount: `undefined` for an empty
string or when `parseUnits` throws. -/
def amountAsBigInt (rawAmount : String) (decimals : Nat) : Option Int :=
  if rawAmount = "" then none else parseUnits rawAmount decimals

/-- `useMemo` body computing the amount validation message. -/
def amountError (rawAmount : String) (decimals : Nat) (tokenBalance : Option Int) : String :=
  if rawAmount = "" then ""
  else
    match amountAsBigInt rawAmount decimals with
    | none => "Invalid amount format"
    | some a =>
      if a ≤ 0 then "Amount must be greater than 0"
      else
        match tokenBalance with
        | some b => if b < a then "Insufficient balance" else ""
        | none => ""

/-- `addressError` on the transfer page: empty input shows nothing,
otherwise a non-address shows `Invalid address`.  The address test is the
library predicate `isAddress`, passed in abstractly. -/
def addressError (isAddr : String → Bool) (toAddress : String) : String :=
  if toAddress = "" then ""
  else if isAddr toAddress then "" else "Invalid address"

/-- Model of viem's `isAddress` restricted to the inputs whose outcome
does not depend on the EIP-55 checksum: `0x` followed by exactly 40
lowercase hex digits.  (For mixed-case inputs the library additionally
checksums through keccak256, which is not modelled; theorems that depend
on the address predicate are stated for an arbitrary `isAddr`.)  Used to
instantiate those theorems at concrete inputs. -/
def isAddressLower (s : String) : Bool :=
  match s.toList with
  | '0' :: 'x' :: rest =>
    rest.length = 40 && rest.all (fun c => c.isDigit || ('a' ≤ c && c ≤ 'f'))
  | _ => false

/-! ### Page state and submit guards -/

/-- Configured constants of the permit page. -/
def PERMIT_TOKEN_ADDRESS : String := "0x042eB0c69FC25678B0d399984c17959875f7018c"

/-- Bank contract that receives `depositWithPermit`. -/
def BANK_CONTRACT_ADDRESS : String := "0xA09A259Bd1516E1848337A592f19Ba08870f8FD2"

/-- `EXPECTED_CHAIN_ID` on the permit page (Sepolia). -/
def EXPECTED_CHAIN_ID : Nat := 11155111

/-- Reactive state of `TransferPage` relevant to validation and submit. -/
structure TransferState where
  address : Option String
  chainId : Nat
  toAddress : String
  rawAmount : String
  decimals : Nat
  tokenBalance : Option Int
  isWritePending : Bool
  isConfirming : Bool
deriving DecidableEq

/-- The transfer page's memoized `amountAsBigInt`. -/
def TransferState.amount (st : TransferState) : Option Int :=
  amountAsBigInt st.rawAmount st.decimals

/-- The transfer page's memoized `amountError`. -/
def TransferState.amountErr (st : TransferState) : String :=
  amountError st.rawAmount st.decimals st.tokenBalance

/-- `canSubmit` on the transfer page.  JS truthiness: `!!address` is
`isSome`, `!!chainId` is nonzero, `!!amountAsBigInt` is a present nonzero
bigint. -/
def canSubmit (isAddr : String → Bool) (st : TransferState) : Bool :=
  st.address.isSome &&
  (st.chainId != 0) &&
  (match st.amount with
   | some a => a != 0
   | none => false) &&
  (st.amountErr == "") &&
  isAddr st.toAddress &&
  !st.isWritePending &&
  !st.isConfirming

/-- The transfer page submit button's `disabled={!canSubmit}`. -/
def transferButtonDisabled (isAddr : String → Bool) (st : TransferState) : Bool :=
  !canSubmit isAddr st

/-- Reactive state of `PermitTokenPage` relevant to validation, signing
and submit. -/
structure DepositState where
  address : Option String
  isConnected : Bool
  chainId : Nat
  depositAmount : String
  decimals : Nat
  tokenBalance : Option Int
  tokenName : Option String
  nonces : Option Int
  isWritePending : Bool
  isConfirming : Bool
deriving DecidableEq

/-- `correctNetwork`: `EXPECTED_CHAIN_ID` is a truthy literal, so the
conditional reduces to an equality test with it. -/
def correctNetwork (st : DepositState) : Bool :=
  st.chainId == EXPECTED_CHAIN_ID

/-- The permit page's memoized `depositAmountBigInt`. -/
def DepositState.amount (st : DepositState) : Option Int :=
  amountAsBigInt st.depositAmount st.decimals

/-- The permit page's memoized `depositAmountError`. -/
def depositAmountError (st : DepositState) : String :=
  amountError st.depositAmount st.decimals st.tokenBalance

/-- `baseGuard` on the permit page. -/
def baseGuard (st : DepositState) : Bool :=
  st.isConnected && correctNetwork st && !st.isWritePending && !st.isConfirming

/-- `canDeposit` on the permit page. -/
def canDeposit (st : DepositState) : Bool :=
  baseGuard st &&
  (match st.amount with
   | some a => a != 0
   | none => false) &&
  (depositAmountError st == "")

/-- The deposit button's `disabled={!canDeposit}`. -/
def depositButtonDisabled (st : DepositState) : Bool :=
  !canDeposit st

/-! ### Explorer link -/

/-- `explorerBaseFromChainId`, identical in both pages: a `switch` on the
(possibly absent) chain id. -/
def explorerBaseFromChainId (chainId : Option Nat) : Option String :=
  if chainId = some 1 then some "https://etherscan.io"
  else if chainId = some 11155111 then some "https://sepolia.etherscan.io"
  else if chainId = some 10 then some "https://optimistic.etherscan.io"
  else if chainId = some 8453 then some "https://basescan.org"
  else if chainId = some 42161 then some "https://arbiscan.io"
  else if chainId = some 137 then some "https://polygonscan.com"
  else none

/-- The explorer link's render condition on both pages:
`isConfirmed && hash && explorerBase && <a …>`. -/
def rendersExplorerLink (isConfirmed : Bool) (hash : Option String) (chainId : Option Nat) : Bool :=
  isConfirmed && hash.isSome && (explorerBaseFromChainId chainId).isSome

/-! ### Decimals fallback -/

/-- The possible states of the `decimals` contract read used by both
pages: not yet returned (JS `undefined`/`null`), a JS number, or a JS
bigint. -/
inductive DecimalsRead where
  | absent
  | num (n : Int)
  | big (n : Int)
deriving DecidableEq

/-- `typeof d === 'number' ? d : Number(d ?? 18)`, identical in both
pages: a number is used as is, an absent read falls back to `18`, and a
bigint is converted with `Number` (lossless in the `uint8` range the
token's `decimals()` returns). -/
def decimalsOf : DecimalsRead → Int
  | .absent => 18
  | .num n => n
  | .big n => n

/-! ### Signature splitting -/

/-- Value of a hex digit character, `none` for anything else. -/
def hexDigitVal (c : Char) : Option Nat :=
  if '0' ≤ c ∧ c ≤ '9' then some (c.toNat - 48)
  else if 'a' ≤ c ∧ c ≤ 'f' then some (c.toNat - 87)
  else if 'A' ≤ c ∧ c ≤ 'F' then some (c.toNat - 55)
  else none

/-- Accumulating hex reader for `jsHexNumber`. -/
def hexValAux : List Char → Nat → Option Nat
  | [], acc => some acc
  | c :: rest, acc =>
    match hexDigitVal c with
    | some d => hexValAux rest (acc * 16 + d)
    | none => none

/-- `Number('0x' + l)`: the hex value of `l`, with `none` standing for
`NaN` (empty or non-hex input).  Exact for inputs of at most 13 hex
digits; `splitSig` only applies it to two digits. -/
def jsHexNumber (l : List Char) : Option Nat :=
  match l with
  | [] => none
  | _ => hexValAux l 0

/-- Result of `splitSig`: `r` and `s` as `0x`-prefixed hex strings and
`v` as a JS number (`none` models `NaN` from unparseable hex). -/
structure SigParts where
  v : Option Nat
  r : String
  s : String
deriving DecidableEq

/-- `splitSig(signature)` from the permit page: slice off `0x`, take the
64-digit `r` and `s` and the 2-digit `v`, then normalize a y-parity `v`
of `0`/`1` to `27`/`28`. -/
def splitSig (signature : String) : SigParts :=
  let sig := signature.data.drop 2
  let r := "0x" ++ String.mk (sig.take 64)
  let s := "0x" ++ String.mk ((sig.drop 64).take 64)
  let v0 := jsHexNumber ((sig.drop 128).take 2)
  let v := match v0 with
    | some n => some (if n = 0 ∨ n = 1 then n + 27 else n)
    | none => none
  { v := v, r := r, s := s }

/-- Lowercase hex character of a value below 16. -/
def hexDigitChar (n : Nat) : Char :=
  if n < 10 then Char.ofNat (48 + n) else Char.ofNat (87 + n)

/-- Two-character lowercase hex encoding of a byte. -/
def byteToHex (b : Nat) : List Char :=
  [hexDigitChar (b / 16), hexDigitChar (b % 16)]

/-- Lowercase hex encoding of a byte list, two characters per byte: the
wire form of the signatures `splitSig` receives. -/
def bytesToHex (bs : List Nat) : List Char :=
  (bs.map byteToHex).flatten

/-! ### The permit-deposit and transfer flows

`signPermit` and `handleDepositWithPermit` on the permit page, and
`handleTransfer` on the transfer page, are embedded as pure functions of
the page state and an environment recording what each external call
(nonce refetch, wallet clock, `getChainId`, `signTypedDataAsync`,
`verifyTypedData`, `simulateContract`, `writeContractAsync`) would
return.  Failures of those calls are modelled by their human-readable
message (the `shortMessage ?? message` string the catch blocks extract).
Each handler returns the ordered trace of the externally visible steps it
performed together with the UI outcome. -/

/-- The EIP-712 `Permit` message built by `signPermit`. -/
structure PermitMessage where
  owner : String
  spender : String
  value : Int
  nonce : Int
  deadline : Int
deriving DecidableEq

/-- The EIP-712 domain built by `signPermit`. -/
structure TypedDomain where
  name : String
  version : String
  chainId : Nat
  verifyingContract : String
deriving DecidableEq

/-- The full argument of `signTypedDataAsync`. -/
structure TypedDataRequest where
  account : String
  domain : TypedDomain
  permitFields : List (String × String)
  primaryType : String
  message : PermitMessage
deriving DecidableEq

/-- `types.Permit` as declared in `signPermit`: field names with their
Solidity types, in order. -/
def permitTypeFields : List (String × String) :=
  [("owner", "address"), ("spender", "address"), ("value", "uint256"),
   ("nonce", "uint256"), ("deadline", "uint256")]

/-- Externally visible steps of the two submit flows. -/
inductive Event where
  | buildTypedData (msg : PermitMessage)
  | signRequest (req : TypedDataRequest)
  | verifySig (ok : Bool)
  | splitSignature (v : Option Nat) (r s : String)
  | simulateCall (value deadline : Int) (v : Option Nat) (r s : String)
  | broadcast
  | transferCall (dst : String) (amount : Int)
deriving DecidableEq

deriving instance DecidableEq for Except

/-- Environment of one run of `handleDepositWithPermit`. -/
structure DepositEnv where
  nonceRefetch : Option Int
  nowSec : Nat
  walletChainId : Nat
  signResult : Except String String
  verifyOk : Bool
  simulateResult : Except String Unit
  writeResult : Except String String
deriving DecidableEq

/-- The signing deadline: `BigInt(Math.floor(Date.now() / 1000) + 60 * 20)`. -/
def deadlineOf (env : DepositEnv) : Int :=
  (env.nowSec : Int) + 1200

/-- The nonce used: freshly refetched value, else the cached read, else
`0n`. -/
def nonceOf (st : DepositState) (env : DepositEnv) : Int :=
  ((env.nonceRefetch.orElse fun _ => st.nonces).getD 0)

/-- The EIP-712 domain `signPermit` constructs: on-chain token name with
the `||`-fallback `'PermitToken'` (JS `||` also treats the empty string
as falsy), version `'1'`, the chain id freshly read from the public
client, and the token contract address. -/
def domainOf (st : DepositState) (env : DepositEnv) : TypedDomain :=
  { name := match st.tokenName with
            | some n => if n = "" then "PermitToken" else n
            | none => "PermitToken"
    version := "1"
    chainId := env.walletChainId
    verifyingContract := PERMIT_TOKEN_ADDRESS }

/-- The `Permit` message `signPermit` constructs for a given `value`:
the connected account as owner (`address as Address`, modelled with `""`
for the absent case the cast ignores), the bank contract as spender, and
the computed nonce and deadline. -/
def permitMessageOf (st : DepositState) (env : DepositEnv) (value : Int) : PermitMessage :=
  { owner := st.address.getD ""
    spender := BANK_CONTRACT_ADDRESS
    value := value
    nonce := nonceOf st env
    deadline := deadlineOf env }

/-- The full `signTypedDataAsync` argument for a given `value`. -/
def typedDataRequestOf (st : DepositState) (env : DepositEnv) (value : Int) : TypedDataRequest :=
  { account := st.address.getD ""
    domain := domainOf st env
    permitFields := permitTypeFields
    primaryType := "Permit"
    message := permitMessageOf st env value }

/-- The error thrown by `signPermit` when the local check fails. -/
def localVerifyErrorMsg : String :=
  "Local signature verification failed: signer != owner (ERC2612InvalidSigner)"

/-- `signPermit(value)`: build the typed data, request a wallet
signature, then locally verify it against the claimed owner, throwing
`localVerifyErrorMsg` when the check fails.  Returns the trace so far and
either the thrown error or the signature with its deadline. -/
def signPermit (st : DepositState) (env : DepositEnv) (value : Int) :
    List Event × Except String (String × Int) :=
  let req := typedDataRequestOf st env value
  let t0 := [Event.buildTypedData req.message, Event.signRequest req]
  match env.signResult with
  | .error e => (t0, .error e)
  | .ok signature =>
    let t1 := t0 ++ [Event.verifySig env.verifyOk]
    if env.verifyOk then (t1, .ok (signature, deadlineOf env))
    else (t1, .error localVerifyErrorMsg)

/-- Outcome of one run of `handleDepositWithPermit`: the step trace, the
`alert`ed message of the catch block if any, and the `setHash` value if
the transaction was sent. -/
structure DepositOutcome where
  trace : List Event
  alertMsg : Option String
  newHash : Option String
deriving DecidableEq

/-- `handleDepositWithPermit`: guard on `canDeposit` and a truthy amount,
then inside `try`: `signPermit`, `splitSig`, `simulateContract` of
`depositWithPermit(amount, deadline, v, r, s)`, `writeContractAsync` of
the simulated request, `setHash`; any thrown error is caught, reduced to
its message and `alert`ed. -/
def handleDepositWithPermit (st : DepositState) (env : DepositEnv) : DepositOutcome :=
  if ¬ canDeposit st then { trace := [], alertMsg := none, newHash := none }
  else
    match st.amount with
    | none => { trace := [], alertMsg := none, newHash := none }
    | some value =>
      if value = 0 then { trace := [], alertMsg := none, newHash := none }
      else
        let (t1, r1) := signPermit st env value
        match r1 with
        | .error e => { trace := t1, alertMsg := some e, newHash := none }
        | .ok (signature, deadline) =>
          let parts := splitSig signature
          let t3 := t1 ++
            [Event.splitSignature parts.v parts.r parts.s,
             Event.simulateCall value deadline parts.v parts.r parts.s]
          match env.simulateResult with
          | .error e => { trace := t3, alertMsg := some e, newHash := none }
          | .ok _ =>
            match env.writeResult with
            | .error e =>
              { trace := t3 ++ [Event.broadcast], alertMsg := some e, newHash := none }
            | .ok h =>
              { trace := t3 ++ [Event.broadcast], alertMsg := none, newHash := some h }

/-- Environment of one run of `handleTransfer`: what
`writeContractAsync` returns (a transaction hash, or a rejection reduced
to its message). -/
structure TransferEnv where
  writeResult : Except String String
deriving DecidableEq

/-- Outcome of one run of `handleTransfer`: the step trace, the final
`status` string set, and the `setHash` value if the transaction was
sent. -/
structure TransferOutcome where
  trace : List Event
  status : Option String
  newHash : Option String
deriving DecidableEq

/-- `handleTransfer`: guard on `canSubmit` and a present amount, then
inside `try`: status `Waiting for wallet confirmation…`, a direct
`writeContractAsync` of `transfer(toAddress, amount)`, `setHash`, status
`Transaction sent…`; a thrown error is caught and reduced to its message
(`shortMessage ?? message ?? 'Transaction rejected or failed'`) in the
status line.  `status` records the last value set. -/
def handleTransfer (isAddr : String → Bool) (st : TransferState) (env : TransferEnv) :
    TransferOutcome :=
  if ¬ canSubmit isAddr st then { trace := [], status := none, newHash := none }
  else
    match st.amount with
    | none => { trace := [], status := none, newHash := none }
    | some amt =>
      match env.writeResult with
      | .ok h =>
        { trace := [Event.transferCall st.toAddress amt],
          status := some "Transaction sent. Waiting for confirmations…",
          newHash := some h }
      | .error e =>
        { trace := [Event.transferCall st.toAddress amt],
          status := some e,
          newHash := none }

/-- The deposit page's `transactionStatus` render expression: the
confirming and confirmed states take precedence, then an error from the
write hook is shown as `Transaction Error: …`, then an error from the
receipt hook (`useWaitForTransactionReceipt` — a transaction that failed
while awaiting its receipt) as `Receipt Error: …`, else the status line
is empty.  Errors are modelled by their extracted display string
(`shortMessage ?? message`). -/
def transactionStatus (isConfirming isConfirmed : Bool)
    (writeError receiptError : Option String) : String :=
  if isConfirming then "Confirming transaction…"
  else if isConfirmed then "Transaction successful!"
  else
    match writeError with
    | some e => "Transaction Error: " ++ e
    | none =>
      match receiptError with
      | some e => "Receipt Error: " ++ e
      | none => ""

/-- The transfer page's `Transaction Error` paragraph: rendered exactly
when the write hook reports an error, with the error's message. -/
def transferWriteErrorText (writeError : Option String) : Option String :=
  writeError.map (fun e => "Transaction Error: " ++ e)

/-- The transfer page's `Receipt Error` paragraph: rendered exactly when
`useWaitForTransactionReceipt` reports an error, with the error's
message. -/
def transferReceiptErrorText (receiptError : Option String) : Option String :=
  receiptError.map (fun e => "Receipt Error: " ++ e)

/-- Does `handleDepositWithPermit` get past its early-return guard? -/
def depositSubmits (st : DepositState) : Bool :=
  canDeposit st &&
  (match st.amount with
   | some a => a != 0
   | none => false)

/-- Does `handleTransfer` get past its early-return guard? -/
def transferSubmits (isAddr : String → Bool) (st : TransferState) : Bool :=
  canSubmit isAddr st && st.amount.isSome

/-- Is an event a wallet signature request? -/
def Event.isSignReq : Event → Bool
  | .signRequest _ => true
  | _ => false

/-- Is an event a contract simulation? -/
def Event.isSimulate : Event → Bool
  | .simulateCall .. => true
  | _ => false

/-- Is an event a `writeContractAsync` broadcast of the permit deposit? -/
def Event.isBroadcast : Event → Bool
  | .broadcast => true
  | _ => false

/-- Is an event a direct `transfer` write? -/
def Event.isTransferWrite : Event → Bool
  | .transferCall .. => true
  | _ => false

/-! ### Concrete sample inputs for instantiating the theorems -/

/-- A connected, on-network deposit-page state with a valid amount. -/
def sampleDepositState : DepositState :=
  { address := some "0x1111111111111111111111111111111111111111"
    isConnected := true
    chainId := 11155111
    depositAmount := "1.5"
    decimals := 2
    tokenBalance := some 1000
    tokenName := some "Permit Token"
    nonces := some 3
    isWritePending := false
    isConfirming := false }

/-- An environment in which every external call of the deposit flow
succeeds. -/
def sampleDepositEnvOk : DepositEnv :=
  { nonceRefetch := some 5
    nowSec := 1700000000
    walletChainId := 11155111
    signResult := .ok "0xsignature"
    verifyOk := true
    simulateResult := .ok ()
    writeResult := .ok "0xdeposittxhash" }

/-- Same environment, but the local signature check fails. -/
def sampleDepositEnvVerifyFail : DepositEnv :=
  { sampleDepositEnvOk with verifyOk := false }

/-- Same environment, but the wallet rejects the signature request. -/
def sampleDepositEnvSignFail : DepositEnv :=
  { sampleDepositEnvOk with signResult := .error "User rejected the request." }

/-- A connected transfer-page state with a valid recipient and amount. -/
def sampleTransferState : TransferState :=
  { address := some "0x2222222222222222222222222222222222222222"
    chainId := 1
    toAddress := "0xaaaaaaaaaaaaaaaaaaaaaaaaaaaaaaaaaaaaaaaa"
    rawAmount := "2"
    decimals := 2
    tokenBalance := some 1000
    isWritePending := false
    isConfirming := false }

/-- A transfer environment whose write succeeds. -/
def sampleTransferEnvOk : TransferEnv :=
  { writeResult := .ok "0xtransfertxhash" }

/-- A transfer environment whose write is rejected. -/
def sampleTransferEnvFail : TransferEnv :=
  { writeResult := .error "Transaction rejected or failed" }

/-! ## Theorems -/

/-! ### Hex helpers for the signature claims -/

/-- Reading back the hex encoding of a value below 16 recovers it. -/
theorem hexDigitVal_hexDigitChar (d : Nat) (hd : d < 16) :
    hexDigitVal (hexDigitChar d) = some d := by
  interval_cases d <;> decide

/-- `Number('0x' + hex b)` recovers a byte from its two-digit encoding. -/
theorem jsHexNumber_byteToHex (b : Nat) (hb : b < 256) :
    jsHexNumber (byteToHex b) = some b := by
  have h1 : b / 16 < 16 := by omega
  have h2 : b % 16 < 16 := by omega
  have e1 := hexDigitVal_hexDigitChar _ h1
  have e2 := hexDigitVal_hexDigitChar _ h2
  simp only [jsHexNumber, byteToHex, hexValAux, e1, e2]
  congr 1
  omega

/-- Hex encoding of a cons. -/
theorem bytesToHex_cons (b : Nat) (bs : List Nat) :
    bytesToHex (b :: bs) =
      hexDigitChar (b / 16) :: hexDigitChar (b % 16) :: bytesToHex bs := rfl

/-- The hex encoding of `bs` has two characters per byte. -/
theorem bytesToHex_length (bs : List Nat) :
    (bytesToHex bs).length = 2 * bs.length := by
  induction bs with
  | nil => rfl
  | cons b t ih => simp [bytesToHex_cons, ih]; ring

/-- Taking `2 * n` hex characters is encoding the first `n` bytes. -/
theorem bytesToHex_take (n : Nat) (bs : List Nat) :
    (bytesToHex bs).take (2 * n) = bytesToHex (bs.take n) := by
  induction bs generalizing n with
  | nil => simp [bytesToHex]
  | cons b t ih =>
    cases n with
    | zero => simp [bytesToHex]
    | succ m =>
      have h2 : 2 * (m + 1) = 2 * m + 1 + 1 := by ring
      simp [bytesToHex_cons, h2, ih]

/-- Dropping `2 * n` hex characters is encoding all but the first `n`
bytes. -/
theorem bytesToHex_drop (n : Nat) (bs : List Nat) :
    (bytesToHex bs).drop (2 * n) = bytesToHex (bs.drop n) := by
  induction bs generalizing n with
  | nil => simp [bytesToHex]
  | cons b t ih =>
    cases n with
    | zero => simp
    | succ m =>
      have h2 : 2 * (m + 1) = 2 * m + 1 + 1 := by ring
      simp [bytesToHex_cons, h2, ih]

/-- C9: on a 65-byte `0x`-prefixed hex signature, `splitSig` returns `r`
as the hex of the first 32 bytes, `s` as the hex of the next 32 bytes,
and `v` as the final byte, except that a final byte of `0` or `1` is
mapped to `27` or `28`; consequently the returned `v` is never `0` or
`1`. -/
theorem splitSig_decomposes (pre : List Nat) (last : Nat)
    (hpre : pre.length = 64) (hlast : last < 256) :
    splitSig ("0x" ++ String.mk (bytesToHex (pre ++ [last]))) =
      { v := some (if last = 0 then 27 else if last = 1 then 28 else last),
        r := "0x" ++ String.mk (bytesToHex (pre.take 32)),
        s := "0x" ++ String.mk (bytesToHex ((pre.drop 32).take 32)) } ∧
    ∀ n, (splitSig ("0x" ++ String.mk (bytesToHex (pre ++ [last])))).v = some n →
      n ≠ 0 ∧ n ≠ 1 := by
  have hdata : ("0x" ++ String.mk (bytesToHex (pre ++ [last]))).data =
      '0' :: 'x' :: bytesToHex (pre ++ [last]) := rfl
  have htake32 : (pre ++ [last]).take 32 = pre.take 32 :=
    List.take_append_of_le_length (by omega)
  have hdrop32take : ((pre ++ [last]).drop 32).take 32 = (pre.drop 32).take 32 := by
    rw [List.drop_append_of_le_length (by omega)]
    exact List.take_append_of_le_length (by simp [hpre])
  have hdrop64 : (pre ++ [last]).drop 64 = [last] := List.drop_left' hpre
  have hr : (bytesToHex (pre ++ [last])).take 64 = bytesToHex (pre.take 32) := by
    have := bytesToHex_take 32 (pre ++ [last])
    rw [htake32] at this
    simpa using this
  have hs : ((bytesToHex (pre ++ [last])).drop 64).take 64 =
      bytesToHex ((pre.drop 32).take 32) := by
    have hd := bytesToHex_drop 32 (pre ++ [last])
    have ht := bytesToHex_take 32 ((pre ++ [last]).drop 32)
    rw [hdrop32take] at ht
    simp only [show (64 : Nat) = 2 * 32 by rfl, hd, ht]
  have hv2 : ((bytesToHex (pre ++ [last])).drop 128).take 2 = byteToHex last := by
    have hd := bytesToHex_drop 64 (pre ++ [last])
    rw [hdrop64] at hd
    simp only [show (128 : Nat) = 2 * 64 by rfl, hd]
    rfl
  have hvnum : jsHexNumber (((bytesToHex (pre ++ [last])).drop 128).take 2) = some last := by
    rw [hv2]; exact jsHexNumber_byteToHex last hlast
  have hvif : (if last = 0 ∨ last = 1 then last + 27 else last) =
      (if last = 0 then 27 else if last = 1 then 28 else last) := by
    by_cases h0 : last = 0
    · simp [h0]
    · by_cases h1 : last = 1
      · simp [h0, h1]
      · simp [h0, h1]
  constructor
  · simp only [splitSig, hdata, List.drop_succ_cons, List.drop_zero, hr, hs, hvnum, hvif]
  · intro n hn
    simp only [splitSig, hdata, List.drop_succ_cons, List.drop_zero, hvnum] at hn
    by_cases h0 : last = 0
    · simp [h0] at hn; omega
    · by_cases h1 : last = 1
      · simp [h0, h1] at hn; omega
      · simp [h0, h1] at hn; omega

/-- C9 witness: `splitSig` applied to the concrete 65-byte signature
`range 64 ++ [1]`, via `splitSig_decomposes`. -/
theorem splitSig_decomposes_witness :
    splitSig ("0x" ++ String.mk (bytesToHex (List.range 64 ++ [1]))) =
      { v := some 28,
        r := "0x" ++ String.mk (bytesToHex ((List.range 64).take 32)),
        s := "0x" ++ String.mk (bytesToHex (((List.range 64).drop 32).take 32)) } := by
  have h := (splitSig_decomposes (List.range 64) 1 (by decide) (by decide)).1
  simpa using h

/-! ### Explorer link (C8) -/

/-- C8: the explorer base URL is determined solely by the chain id: the
six known ids map to their URLs, any other id (or an absent one) yields
none, and in that case no explorer link is rendered for a confirmed
transaction. -/
theorem explorer_base_mapping (c : Nat)
    (hc : c ≠ 1 ∧ c ≠ 11155111 ∧ c ≠ 10 ∧ c ≠ 8453 ∧ c ≠ 42161 ∧ c ≠ 137)
    (conf : Bool) (h : Option String) :
    explorerBaseFromChainId (some 1) = some "https://etherscan.io" ∧
    explorerBaseFromChainId (some 11155111) = some "https://sepolia.etherscan.io" ∧
    explorerBaseFromChainId (some 10) = some "https://optimistic.etherscan.io" ∧
    explorerBaseFromChainId (some 8453) = some "https://basescan.org" ∧
    explorerBaseFromChainId (some 42161) = some "https://arbiscan.io" ∧
    explorerBaseFromChainId (some 137) = some "https://polygonscan.com" ∧
    explorerBaseFromChainId none = none ∧
    explorerBaseFromChainId (some c) = none ∧
    rendersExplorerLink conf h (some c) = false ∧
    rendersExplorerLink conf h none = false := by
  obtain ⟨h1, h2, h3, h4, h5, h6⟩ := hc
  have hbase : explorerBaseFromChainId (some c) = none := by
    simp [explorerBaseFromChainId, h1, h2, h3, h4, h5, h6]
  refine ⟨rfl, rfl, rfl, rfl, rfl, rfl, rfl, hbase, ?_, ?_⟩
  · simp [rendersExplorerLink, hbase]
  · simp [rendersExplorerLink, explorerBaseFromChainId]

/-- C8 witness: chain id 2 is unmapped, so a confirmed transaction with a
hash renders no explorer link, via `explorer_base_mapping`. -/
theorem explorer_base_mapping_witness :
    explorerBaseFromChainId (some 2) = none ∧
    rendersExplorerLink true (some "0xabc") (some 2) = false :=
  ⟨(explorer_base_mapping 2 (by decide) true (some "0xabc")).2.2.2.2.2.2.2.1,
   (explorer_base_mapping 2 (by decide) true (some "0xabc")).2.2.2.2.2.2.2.2.1⟩

/-! ### Decimals fallback (C10) -/

/-- C10: while the token's `decimals` read has not returned
(`undefined`/`null`), both pages use `18` for parsing amounts and
validating them against the balance; once a numeric value is returned,
that value is used. -/
theorem decimals_fallback :
    decimalsOf .absent = 18 ∧
    (∀ n, decimalsOf (.num n) = n) ∧
    (∀ n, decimalsOf (.big n) = n) ∧
    (∀ raw, amountAsBigInt raw (decimalsOf .absent).toNat = amountAsBigInt raw 18) ∧
    (∀ raw bal, amountError raw (decimalsOf .absent).toNat bal = amountError raw 18 bal) :=
  ⟨rfl, fun _ => rfl, fun _ => rfl, fun _ => rfl, fun _ _ => rfl⟩

/-! ### Amount validation (C4) -/

/-- C4 counterexample: on both pages an empty amount string produces no
rejection message at all (the validation returns the empty string, which
is none of the three rejection messages), contradicting the claim that an
empty string is rejected with a corresponding message. -/
theorem amount_validation_counterexample :
    amountError "" 18 (some 100) = "" ∧
    amountError "" 18 none = "" ∧
    amountError "" 18 (some 100) ≠ "Invalid amount format" ∧
    amountError "" 18 (some 100) ≠ "Amount must be greater than 0" ∧
    amountError "" 18 (some 100) ≠ "Insufficient balance" := by
  refine ⟨rfl, rfl, ?_, ?_, ?_⟩ <;> decide

/-- C4 (amended): for a non-empty amount string the validation yields
`Invalid amount format` when the string is not numeric (`parseUnits`
rejects it), `Amount must be greater than 0` when it parses to zero or a
negative value, `Insufficient balance` when it parses to a value
exceeding the fetched balance, and no error otherwise; an empty string
yields no error message.  The same `amountError` logic runs on both
pages. -/
theorem amount_validation (s : String) (d : Nat) (bal : Option Int) (hs : s ≠ "") :
    (parseUnits s d = none ↔ decimalShape s.toList = false) ∧
    (parseUnits s d = none → amountError s d bal = "Invalid amount format") ∧
    (∀ a, parseUnits s d = some a → a ≤ 0 →
      amountError s d bal = "Amount must be greater than 0") ∧
    (∀ a b, parseUnits s d = some a → 0 < a → bal = some b → b < a →
      amountError s d bal = "Insufficient balance") ∧
    (∀ a, parseUnits s d = some a → 0 < a → (∀ b, bal = some b → a ≤ b) →
      amountError s d bal = "") ∧
    amountError "" d bal = "" := by
  refine ⟨?_, ?_, ?_, ?_, ?_, rfl⟩
  · by_cases hsh : decimalShape s.toList <;> simp [parseUnits, hsh]
  · intro hp
    simp [amountError, amountAsBigInt, hs, hp]
  · intro a hp ha
    simp [amountError, amountAsBigInt, hs, hp, ha]
  · intro a b hp ha hb hba
    subst hb
    simp [amountError, amountAsBigInt, hs, hp, hba, show ¬ a ≤ 0 by omega]
  · intro a hp ha hb
    cases bal with
    | none => simp [amountError, amountAsBigInt, hs, hp, show ¬ a ≤ 0 by omega]
    | some b =>
      have hab := hb b rfl
      simp [amountError, amountAsBigInt, hs, hp, show ¬ a ≤ 0 by omega,
        show ¬ b < a by omega]

/-- C4 witness: the amended validation evaluated on concrete inputs of
each category, via `amount_validation`. -/
theorem amount_validation_witness :
    amountError "abc" 18 (some 100) = "Invalid amount format" ∧
    amountError "0" 18 (some 100) = "Amount must be greater than 0" ∧
    amountError "-3" 18 (some 100) = "Amount must be greater than 0" ∧
    amountError "2" 2 (some 100) = "Insufficient balance" ∧
    amountError "0.5" 2 (some 100) = "" :=
  ⟨(amount_validation "abc" 18 (some 100) (by decide)).2.1 (by decide),
   (amount_validation "0" 18 (some 100) (by decide)).2.2.1 0 (by decide) (by decide),
   (amount_validation "-3" 18 (some 100) (by decide)).2.2.1 (-3000000000000000000)
     (by decide) (by decide),
   (amount_validation "2" 2 (some 100) (by decide)).2.2.2.1 200 100 (by decide) (by decide)
     rfl (by decide),
   (amount_validation "0.5" 2 (some 100) (by decide)).2.2.2.2.1 50 (by decide) (by decide)
     (fun b hb => by cases hb; decide)⟩

/-! ### Address validation (C7) -/

/-- C7 counterexample: the empty recipient string is not a valid address,
yet the page shows no `Invalid address` error for it (the error is only
rendered for non-empty inputs), contradicting the claim that every
non-address string gets the error shown. -/
theorem address_validation_counterexample :
    isAddressLower "" = false ∧
    addressError isAddressLower "" = "" ∧
    addressError isAddressLower "" ≠ "Invalid address" :=
  ⟨rfl, rfl, by decide⟩

/-- C7 (amended): a non-empty recipient string that is not a valid
address shows `Invalid address`; any non-address string, the empty one
included, keeps the submit button disabled; a valid address string
produces no address error. -/
theorem address_validation (isAddr : String → Bool) (st : TransferState) :
    (st.toAddress ≠ "" → isAddr st.toAddress = false →
      addressError isAddr st.toAddress = "Invalid address") ∧
    (isAddr st.toAddress = true → addressError isAddr st.toAddress = "") ∧
    (isAddr st.toAddress = false → transferButtonDisabled isAddr st = true) ∧
    addressError isAddr "" = "" := by
  refine ⟨?_, ?_, ?_, rfl⟩
  · intro hne hbad
    simp [addressError, hne, hbad]
  · intro hok
    by_cases hne : st.toAddress = "" <;> simp [addressError, hne, hok]
  · intro hbad
    simp [transferButtonDisabled, canSubmit, hbad]

/-- C7 witness: concrete invalid and valid recipient strings, via
`address_validation`. -/
theorem address_validation_witness :
    addressError isAddressLower "nope" = "Invalid address" ∧
    addressError isAddressLower "0xaaaaaaaaaaaaaaaaaaaaaaaaaaaaaaaaaaaaaaaa" = "" ∧
    transferButtonDisabled isAddressLower
      { sampleTransferState with toAddress := "nope" } = true :=
  ⟨(address_validation isAddressLower
      { sampleTransferState with toAddress := "nope" }).1 (by decide) (by decide),
   (address_validation isAddressLower sampleTransferState).2.1 (by decide),
   (address_validation isAddressLower
      { sampleTransferState with toAddress := "nope" }).2.2.1 (by decide)⟩

/-! ### Submit guards (C5) -/

/-- A parsed amount that passes the validation with no message is
positive. -/
theorem pos_of_amount_ok (raw : String) (d : Nat) (bal : Option Int) (a : Int)
    (hamt : amountAsBigInt raw d = some a)
    (herr : amountError raw d bal = "") : 0 < a := by
  by_cases hraw : raw = ""
  · subst hraw
    simp [amountAsBigInt] at hamt
  · by_cases ha : a ≤ 0
    · exfalso
      have h2 : amountError raw d bal = "Amount must be greater than 0" := by
        simp [amountError, hraw, hamt, ha]
      rw [herr] at h2
      exact absurd h2 (by decide)
    · omega

/-- C5: whenever the submit button is enabled (`disabled` is false), on
the transfer page a wallet is connected, the amount parses to a positive
value with no validation error, the recipient is a valid address, and no
write is pending and no transaction is confirming; on the permit page a
wallet is connected, the chain id equals the expected chain id 11155111,
the amount parses to a positive value with no validation error, and no
write is pending and no transaction is confirming. -/
theorem submit_button_guard (isAddr : String → Bool)
    (tst : TransferState) (dst : DepositState)
    (ht : transferButtonDisabled isAddr tst = false)
    (hd : depositButtonDisabled dst = false) :
    (tst.address.isSome = true ∧
     (∃ a, tst.amount = some a ∧ 0 < a) ∧
     tst.amountErr = "" ∧
     isAddr tst.toAddress = true ∧
     tst.isWritePending = false ∧
     tst.isConfirming = false) ∧
    (dst.isConnected = true ∧
     dst.chainId = EXPECTED_CHAIN_ID ∧
     (∃ a, dst.amount = some a ∧ 0 < a) ∧
     depositAmountError dst = "" ∧
     dst.isWritePending = false ∧
     dst.isConfirming = false) := by
  have ht' : canSubmit isAddr tst = true := by
    simpa [transferButtonDisabled] using ht
  have hd' : canDeposit dst = true := by
    simpa [depositButtonDisabled] using hd
  rw [canSubmit] at ht'
  simp only [Bool.and_eq_true, Bool.not_eq_true'] at ht'
  obtain ⟨⟨⟨⟨⟨⟨haddr, _hchain⟩, hamt⟩, herr⟩, hisaddr⟩, hpend⟩, hconf⟩ := ht'
  rw [canDeposit, baseGuard, correctNetwork] at hd'
  simp only [Bool.and_eq_true, Bool.not_eq_true', beq_iff_eq] at hd'
  obtain ⟨⟨⟨⟨⟨hconn, hnet⟩, hdpend⟩, hdconf⟩, hdamt⟩, hderr⟩ := hd'
  have herr' : tst.amountErr = "" := by simpa using herr
  have hderr' : depositAmountError dst = "" := by simpa using hderr
  refine ⟨⟨haddr, ?_, herr', hisaddr, hpend, hconf⟩,
          hconn, hnet, ?_, hderr', hdpend, hdconf⟩
  · cases ha : tst.amount with
    | none => rw [ha] at hamt; simp at hamt
    | some a =>
      exact ⟨a, rfl, pos_of_amount_ok tst.rawAmount tst.decimals tst.tokenBalance a ha herr'⟩
  · cases ha : dst.amount with
    | none => rw [ha] at hdamt; simp at hdamt
    | some a =>
      exact ⟨a, rfl, pos_of_amount_ok dst.depositAmount dst.decimals dst.tokenBalance a ha hderr'⟩

/-- C5 witness: the concrete sample states enable the buttons and satisfy
the guard conditions, via `submit_button_guard`. -/
theorem submit_button_guard_witness :
    transferButtonDisabled isAddressLower sampleTransferState = false ∧
    depositButtonDisabled sampleDepositState = false ∧
    sampleDepositState.chainId = EXPECTED_CHAIN_ID ∧
    isAddressLower sampleTransferState.toAddress = true :=
  ⟨by decide, by decide,
   (submit_button_guard isAddressLower sampleTransferState sampleDepositState
      (by decide) (by decide)).2.2.1,
   (submit_button_guard isAddressLower sampleTransferState sampleDepositState
      (by decide) (by decide)).1.2.2.2.1⟩

/-! ### The submit flows (C1, C2, C3, C6) -/

/-- C1: a successful permit-deposit submission performs exactly, in
order: construct the typed-data message (owner, spender, value, nonce,
deadline), request a wallet signature, locally re-verify it against the
claimed owner, decompose it into `v`, `r`, `s`, simulate the
`depositWithPermit` call, then broadcast; while a successful transfer
submission consists of the single direct `transfer` call with the
recipient and parsed amount. -/
theorem flow_step_order
    (st : DepositState) (env : DepositEnv) (isAddr : String → Bool)
    (tst : TransferState) (tenv : TransferEnv)
    (amt : Int) (hamt : st.amount = some amt)
    (hcan : canDeposit st = true)
    (sig : String) (hsig : env.signResult = .ok sig)
    (hver : env.verifyOk = true)
    (hsim : env.simulateResult = .ok ())
    (txh : String) (hw : env.writeResult = .ok txh)
    (tamt : Int) (htamt : tst.amount = some tamt)
    (htcan : canSubmit isAddr tst = true)
    (tth : String) (htw : tenv.writeResult = .ok tth) :
    handleDepositWithPermit st env =
      { trace := [Event.buildTypedData (permitMessageOf st env amt),
                  Event.signRequest (typedDataRequestOf st env amt),
                  Event.verifySig true,
                  Event.splitSignature (splitSig sig).v (splitSig sig).r (splitSig sig).s,
                  Event.simulateCall amt (deadlineOf env)
                    (splitSig sig).v (splitSig sig).r (splitSig sig).s,
                  Event.broadcast],
        alertMsg := none,
        newHash := some txh } ∧
    handleTransfer isAddr tst tenv =
      { trace := [Event.transferCall tst.toAddress tamt],
        status := some "Transaction sent. Waiting for confirmations…",
        newHash := some tth } := by
  have hne : amt ≠ 0 := by
    have h := hcan
    rw [canDeposit] at h
    simp only [Bool.and_eq_true] at h
    have h2 := h.1.2
    rw [hamt] at h2
    simpa using h2
  constructor
  · simp [handleDepositWithPermit, hcan, hamt, hne, signPermit, typedDataRequestOf,
      hsig, hver, hsim, hw]
  · simp [handleTransfer, htcan, htamt, htw]

/-- C1 witness: the two flows run on the concrete sample state and
all-success environments, via `flow_step_order`. -/
theorem flow_step_order_witness :
    handleDepositWithPermit sampleDepositState sampleDepositEnvOk =
      { trace := [Event.buildTypedData
                    (permitMessageOf sampleDepositState sampleDepositEnvOk 150),
                  Event.signRequest
                    (typedDataRequestOf sampleDepositState sampleDepositEnvOk 150),
                  Event.verifySig true,
                  Event.splitSignature (splitSig "0xsignature").v
                    (splitSig "0xsignature").r (splitSig "0xsignature").s,
                  Event.simulateCall 150 (deadlineOf sampleDepositEnvOk)
                    (splitSig "0xsignature").v
                    (splitSig "0xsignature").r (splitSig "0xsignature").s,
                  Event.broadcast],
        alertMsg := none,
        newHash := some "0xdeposittxhash" } ∧
    handleTransfer isAddressLower sampleTransferState sampleTransferEnvOk =
      { trace := [Event.transferCall sampleTransferState.toAddress 200],
        status := some "Transaction sent. Waiting for confirmations…",
        newHash := some "0xtransfertxhash" } :=
  flow_step_order sampleDepositState sampleDepositEnvOk isAddressLower
    sampleTransferState sampleTransferEnvOk
    150 (by decide) (by decide)
    "0xsignature" rfl rfl rfl
    "0xdeposittxhash" rfl
    200 (by decide) (by decide)
    "0xtransfertxhash" rfl

/-- C3: when the local `verifyTypedData` check fails, the deposit flow
never simulates and never broadcasts (`writeContractAsync` is not
called), no transaction hash is recorded, and — when the submission
actually ran and the wallet had returned a signature — the user gets the
local-verification error message. -/
theorem verify_failure_blocks_broadcast (st : DepositState) (env : DepositEnv)
    (hver : env.verifyOk = false) :
    Event.broadcast ∉ (handleDepositWithPermit st env).trace ∧
    (∀ val dl v r s, Event.simulateCall val dl v r s ∉ (handleDepositWithPermit st env).trace) ∧
    (handleDepositWithPermit st env).newHash = none ∧
    (canDeposit st = true → ∀ amt, st.amount = some amt → amt ≠ 0 →
      ∀ sig, env.signResult = .ok sig →
        (handleDepositWithPermit st env).alertMsg = some localVerifyErrorMsg) := by
  by_cases hcan : canDeposit st
  · cases hamt : st.amount with
    | none =>
      simp [handleDepositWithPermit, hcan, hamt]
    | some amt =>
      by_cases hz : amt = 0
      · simp [handleDepositWithPermit, hcan, hamt, hz]
      · cases hsig : env.signResult with
        | error e =>
          simp [handleDepositWithPermit, hcan, hamt, hz, signPermit, hsig, hver]
        | ok sig =>
          simp [handleDepositWithPermit, hcan, hamt, hz, signPermit, hsig, hver]
  · simp [handleDepositWithPermit, hcan]

/-- C3 witness: the flow run on the sample state with a failing local
verification, via `verify_failure_blocks_broadcast`. -/
theorem verify_failure_blocks_broadcast_witness :
    (handleDepositWithPermit sampleDepositState sampleDepositEnvVerifyFail).alertMsg =
      some localVerifyErrorMsg ∧
    (handleDepositWithPermit sampleDepositState sampleDepositEnvVerifyFail).newHash = none :=
  ⟨(verify_failure_blocks_broadcast sampleDepositState sampleDepositEnvVerifyFail
      rfl).2.2.2 (by decide) 150 (by decide) (by decide) "0xsignature" rfl,
   (verify_failure_blocks_broadcast sampleDepositState sampleDepositEnvVerifyFail
      rfl).2.2.1⟩

/-- C2: every typed-data signing request sent to the wallet carries the
EIP-712 domain (on-chain token name with `PermitToken` fallback, version
`1`, the freshly read chain id, the permit-token address as verifying
contract), primary type `Permit`, and a message with exactly the five
fields owner (the connected account), spender (the bank contract), value,
nonce, and deadline, typed `address, address, uint256, uint256, uint256`. -/
theorem typed_data_request_shape (st : DepositState) (env : DepositEnv)
    (req : TypedDataRequest)
    (hmem : Event.signRequest req ∈ (handleDepositWithPermit st env).trace) :
    req.domain.name = (match st.tokenName with
                       | some n => if n = "" then "PermitToken" else n
                       | none => "PermitToken") ∧
    req.domain.version = "1" ∧
    req.domain.chainId = env.walletChainId ∧
    req.domain.verifyingContract = PERMIT_TOKEN_ADDRESS ∧
    req.primaryType = "Permit" ∧
    req.permitFields = [("owner", "address"), ("spender", "address"), ("value", "uint256"),
      ("nonce", "uint256"), ("deadline", "uint256")] ∧
    req.message.owner = st.address.getD "" ∧
    req.message.spender = BANK_CONTRACT_ADDRESS ∧
    (∃ a, st.amount = some a ∧ req.message.value = a) ∧
    req.message.nonce = nonceOf st env ∧
    req.message.deadline = deadlineOf env := by
  have key : ∃ a, st.amount = some a ∧ req = typedDataRequestOf st env a := by
    by_cases hcan : canDeposit st
    · cases hamt : st.amount with
      | none => simp [handleDepositWithPermit, hcan, hamt] at hmem
      | some amt =>
        by_cases hz : amt = 0
        · simp [handleDepositWithPermit, hcan, hamt, hz] at hmem
        · refine ⟨amt, rfl, ?_⟩
          cases hsig : env.signResult with
          | error e =>
            simp [handleDepositWithPermit, hcan, hamt, hz, signPermit, hsig] at hmem
            exact hmem
          | ok sig =>
            by_cases hver : env.verifyOk
            · cases hsim : env.simulateResult with
              | error e =>
                simp [handleDepositWithPermit, hcan, hamt, hz, signPermit, hsig, hver,
                  hsim] at hmem
                exact hmem
              | ok u =>
                cases hwr : env.writeResult with
                | error e =>
                  simp [handleDepositWithPermit, hcan, hamt, hz, signPermit, hsig, hver,
                    hsim, hwr] at hmem
                  exact hmem
                | ok h =>
                  simp [handleDepositWithPermit, hcan, hamt, hz, signPermit, hsig, hver,
                    hsim, hwr] at hmem
                  exact hmem
            · simp [handleDepositWithPermit, hcan, hamt, hz, signPermit, hsig, hver] at hmem
              exact hmem
    · simp [handleDepositWithPermit, hcan] at hmem
  obtain ⟨a, hamt, hreq⟩ := key
  subst hreq
  exact ⟨rfl, rfl, rfl, rfl, rfl, rfl, rfl, rfl, ⟨a, hamt, rfl⟩, rfl, rfl⟩

/-- C2 witness: the request emitted on the concrete sample run has the
required shape, via `typed_data_request_shape`. -/
theorem typed_data_request_shape_witness :
    (typedDataRequestOf sampleDepositState sampleDepositEnvOk 150).domain.version = "1" ∧
    (typedDataRequestOf sampleDepositState sampleDepositEnvOk 150).primaryType = "Permit" ∧
    (typedDataRequestOf sampleDepositState
      sampleDepositEnvOk 150).domain.verifyingContract = PERMIT_TOKEN_ADDRESS ∧
    (typedDataRequestOf sampleDepositState
      sampleDepositEnvOk 150).message.spender = BANK_CONTRACT_ADDRESS ∧
    (typedDataRequestOf sampleDepositState sampleDepositEnvOk 150).permitFields =
      [("owner", "address"), ("spender", "address"), ("value", "uint256"),
       ("nonce", "uint256"), ("deadline", "uint256")] := by
  have h := typed_data_request_shape sampleDepositState sampleDepositEnvOk
    (typedDataRequestOf sampleDepositState sampleDepositEnvOk 150) (by decide)
  exact ⟨h.2.1, h.2.2.2.2.1, h.2.2.2.1, h.2.2.2.2.2.2.2.1, h.2.2.2.2.2.1⟩

/-- Exhaustive characterization of `handleDepositWithPermit`: either the
guard returns early and nothing happens, or exactly one of the five
terminal branches is taken, each with its explicit trace and outcome. -/
theorem handleDeposit_char (st : DepositState) (env : DepositEnv) :
    (depositSubmits st = false ∧
      handleDepositWithPermit st env = { trace := [], alertMsg := none, newHash := none }) ∨
    (depositSubmits st = true ∧ ∃ amt, st.amount = some amt ∧
      ((∃ e, env.signResult = .error e ∧
        handleDepositWithPermit st env =
          { trace := [.buildTypedData (permitMessageOf st env amt),
                      .signRequest (typedDataRequestOf st env amt)],
            alertMsg := some e, newHash := none }) ∨
       (∃ sig, env.signResult = .ok sig ∧ env.verifyOk = false ∧
        handleDepositWithPermit st env =
          { trace := [.buildTypedData (permitMessageOf st env amt),
                      .signRequest (typedDataRequestOf st env amt),
                      .verifySig false],
            alertMsg := some localVerifyErrorMsg, newHash := none }) ∨
       (∃ sig e, env.signResult = .ok sig ∧ env.verifyOk = true ∧
        env.simulateResult = .error e ∧
        handleDepositWithPermit st env =
          { trace := [.buildTypedData (permitMessageOf st env amt),
                      .signRequest (typedDataRequestOf st env amt),
                      .verifySig true,
                      .splitSignature (splitSig sig).v (splitSig sig).r (splitSig sig).s,
                      .simulateCall amt (deadlineOf env)
                        (splitSig sig).v (splitSig sig).r (splitSig sig).s],
            alertMsg := some e, newHash := none }) ∨
       (∃ sig e, env.signResult = .ok sig ∧ env.verifyOk = true ∧
        env.simulateResult = .ok () ∧ env.writeResult = .error e ∧
        handleDepositWithPermit st env =
          { trace := [.buildTypedData (permitMessageOf st env amt),
                      .signRequest (typedDataRequestOf st env amt),
                      .verifySig true,
                      .splitSignature (splitSig sig).v (splitSig sig).r (splitSig sig).s,
                      .simulateCall amt (deadlineOf env)
                        (splitSig sig).v (splitSig sig).r (splitSig sig).s,
                      .broadcast],
            alertMsg := some e, newHash := none }) ∨
       (∃ sig h, env.signResult = .ok sig ∧ env.verifyOk = true ∧
        env.simulateResult = .ok () ∧ env.writeResult = .ok h ∧
        handleDepositWithPermit st env =
          { trace := [.buildTypedData (permitMessageOf st env amt),
                      .signRequest (typedDataRequestOf st env amt),
                      .verifySig true,
                      .splitSignature (splitSig sig).v (splitSig sig).r (splitSig sig).s,
                      .simulateCall amt (deadlineOf env)
                        (splitSig sig).v (splitSig sig).r (splitSig sig).s,
                      .broadcast],
            alertMsg := none, newHash := some h }))) := by
  by_cases hcan : canDeposit st
  · cases hamt : st.amount with
    | none =>
      exact Or.inl ⟨by simp [depositSubmits, hamt],
        by simp [handleDepositWithPermit, hcan, hamt]⟩
    | some amt =>
      by_cases hz : amt = 0
      · exact Or.inl ⟨by simp [depositSubmits, hamt, hz],
          by simp [handleDepositWithPermit, hcan, hamt, hz]⟩
      · refine Or.inr ⟨by simp [depositSubmits, hcan, hamt, hz], amt, rfl, ?_⟩
        cases hsig : env.signResult with
        | error e =>
          exact Or.inl ⟨e, rfl,
            by simp [handleDepositWithPermit, hcan, hamt, hz, signPermit, typedDataRequestOf, hsig]⟩
        | ok sig =>
          by_cases hver : env.verifyOk
          · cases hsim : env.simulateResult with
            | error e =>
              exact Or.inr (Or.inr (Or.inl ⟨sig, e, rfl, hver, rfl,
                by simp [handleDepositWithPermit, hcan, hamt, hz, signPermit, typedDataRequestOf, hsig,
                  hver, hsim]⟩))
            | ok u =>
              cases hwr : env.writeResult with
              | error e =>
                exact Or.inr (Or.inr (Or.inr (Or.inl ⟨sig, e, rfl, hver, rfl, rfl,
                  by simp [handleDepositWithPermit, hcan, hamt, hz, signPermit, typedDataRequestOf, hsig,
                    hver, hsim, hwr]⟩)))
              | ok h =>
                exact Or.inr (Or.inr (Or.inr (Or.inr ⟨sig, h, rfl, hver, rfl, rfl,
                  by simp [handleDepositWithPermit, hcan, hamt, hz, signPermit, typedDataRequestOf, hsig,
                    hver, hsim, hwr]⟩)))
          · exact Or.inr (Or.inl ⟨sig, rfl, by simpa using hver,
              by simp [handleDepositWithPermit, hcan, hamt, hz, signPermit, typedDataRequestOf, hsig, hver]⟩)
  · exact Or.inl ⟨by simp [depositSubmits, hcan],
      by simp [handleDepositWithPermit, hcan]⟩

/-- C6: each external operation of a submit flow is attempted at most
once per run (no retries); when the guard blocks, nothing at all happens;
each failure point of the deposit flow — wallet rejection of the
signature request, failed local verification, reverted simulation, failed
broadcast — and the transfer flow's failed write, ends the run with the
failure's human-readable message alerted (deposit page) or set as the
status (transfer page) and with no transaction hash recorded; and a
write-hook or receipt-hook failure surfacing after submission is rendered
as `Transaction Error: …` / `Receipt Error: …` status text on both
pages: nothing is rethrown or recovered beyond showing the string. -/
theorem failures_caught_and_not_retried
    (st : DepositState) (env : DepositEnv)
    (isAddr : String → Bool) (tst : TransferState) (tenv : TransferEnv) :
    ((handleDepositWithPermit st env).trace.countP Event.isSignReq ≤ 1 ∧
     (handleDepositWithPermit st env).trace.countP Event.isSimulate ≤ 1 ∧
     (handleDepositWithPermit st env).trace.countP Event.isBroadcast ≤ 1 ∧
     (handleTransfer isAddr tst tenv).trace.countP Event.isTransferWrite ≤ 1) ∧
    (depositSubmits st = false →
      handleDepositWithPermit st env = { trace := [], alertMsg := none, newHash := none }) ∧
    (depositSubmits st = true →
      (∀ e, env.signResult = .error e →
        (handleDepositWithPermit st env).alertMsg = some e ∧
        (handleDepositWithPermit st env).newHash = none) ∧
      (∀ sig, env.signResult = .ok sig → env.verifyOk = false →
        (handleDepositWithPermit st env).alertMsg = some localVerifyErrorMsg ∧
        (handleDepositWithPermit st env).newHash = none) ∧
      (∀ sig e, env.signResult = .ok sig → env.verifyOk = true →
        env.simulateResult = .error e →
        (handleDepositWithPermit st env).alertMsg = some e ∧
        (handleDepositWithPermit st env).newHash = none) ∧
      (∀ sig e, env.signResult = .ok sig → env.verifyOk = true →
        env.simulateResult = .ok () → env.writeResult = .error e →
        (handleDepositWithPermit st env).alertMsg = some e ∧
        (handleDepositWithPermit st env).newHash = none)) ∧
    (transferSubmits isAddr tst = false →
      handleTransfer isAddr tst tenv = { trace := [], status := none, newHash := none }) ∧
    (transferSubmits isAddr tst = true →
      ∀ e, tenv.writeResult = .error e →
        (handleTransfer isAddr tst tenv).status = some e ∧
        (handleTransfer isAddr tst tenv).newHash = none) ∧
    (∀ e re, transactionStatus false false (some e) re = "Transaction Error: " ++ e) ∧
    (∀ e, transactionStatus false false none (some e) = "Receipt Error: " ++ e) ∧
    (∀ e, transferWriteErrorText (some e) = some ("Transaction Error: " ++ e)) ∧
    (∀ e, transferReceiptErrorText (some e) = some ("Receipt Error: " ++ e)) ∧
    transferWriteErrorText none = none ∧
    transferReceiptErrorText none = none := by
  have htchar :
      (transferSubmits isAddr tst = false ∧
        handleTransfer isAddr tst tenv = { trace := [], status := none, newHash := none }) ∨
      (transferSubmits isAddr tst = true ∧ ∃ amt, tst.amount = some amt ∧
        ((∃ e, tenv.writeResult = .error e ∧
          handleTransfer isAddr tst tenv =
            { trace := [.transferCall tst.toAddress amt], status := some e,
              newHash := none }) ∨
         (∃ h, tenv.writeResult = .ok h ∧
          handleTransfer isAddr tst tenv =
            { trace := [.transferCall tst.toAddress amt],
              status := some "Transaction sent. Waiting for confirmations…",
              newHash := some h }))) := by
    by_cases hcs : canSubmit isAddr tst
    · cases hamt : tst.amount with
      | none =>
        exact Or.inl ⟨by simp [transferSubmits, hamt],
          by simp [handleTransfer, hcs, hamt]⟩
      | some amt =>
        refine Or.inr ⟨by simp [transferSubmits, hcs, hamt], amt, rfl, ?_⟩
        cases hwr : tenv.writeResult with
        | error e => exact Or.inl ⟨e, rfl, by simp [handleTransfer, hcs, hamt, hwr]⟩
        | ok h => exact Or.inr ⟨h, rfl, by simp [handleTransfer, hcs, hamt, hwr]⟩
    · exact Or.inl ⟨by simp [transferSubmits, hcs], by simp [handleTransfer, hcs]⟩
  have hdchar := handleDeposit_char st env
  refine ⟨⟨?_, ?_, ?_, ?_⟩, ?_, ?_, ?_, ?_,
    fun e re => rfl, fun e => rfl, fun e => rfl, fun e => rfl, rfl, rfl⟩
  · rcases hdchar with ⟨-, heq⟩ | ⟨-, amt, -, ⟨e, -, heq⟩ | ⟨sig, -, -, heq⟩ |
      ⟨sig, e, -, -, -, heq⟩ | ⟨sig, e, -, -, -, -, heq⟩ | ⟨sig, h, -, -, -, -, heq⟩⟩ <;>
      simp [heq, Event.isSignReq, List.countP_cons]
  · rcases hdchar with ⟨-, heq⟩ | ⟨-, amt, -, ⟨e, -, heq⟩ | ⟨sig, -, -, heq⟩ |
      ⟨sig, e, -, -, -, heq⟩ | ⟨sig, e, -, -, -, -, heq⟩ | ⟨sig, h, -, -, -, -, heq⟩⟩ <;>
      simp [heq, Event.isSimulate, List.countP_cons]
  · rcases hdchar with ⟨-, heq⟩ | ⟨-, amt, -, ⟨e, -, heq⟩ | ⟨sig, -, -, heq⟩ |
      ⟨sig, e, -, -, -, heq⟩ | ⟨sig, e, -, -, -, -, heq⟩ | ⟨sig, h, -, -, -, -, heq⟩⟩ <;>
      simp [heq, Event.isBroadcast, List.countP_cons]
  · rcases htchar with ⟨-, heq⟩ | ⟨-, amt, -, ⟨e, -, heq⟩ | ⟨h, -, heq⟩⟩ <;>
      simp [heq, Event.isTransferWrite, List.countP_cons]
  · intro hns
    rcases hdchar with ⟨-, heq⟩ | ⟨hsub, -⟩
    · exact heq
    · rw [hns] at hsub
      exact absurd hsub (by simp)
  · intro hs
    rcases hdchar with ⟨hsub, -⟩ | ⟨-, amt, hamt, hbr⟩
    · rw [hs] at hsub
      exact absurd hsub (by simp)
    · refine ⟨?_, ?_, ?_, ?_⟩
      · intro e hE
        rcases hbr with ⟨e2, hsig, heq⟩ | ⟨sig2, hsig, hv, heq⟩ |
          ⟨sig2, e2, hsig, hv, hsim, heq⟩ | ⟨sig2, e2, hsig, hv, hsim, hwr, heq⟩ |
          ⟨sig2, h2, hsig, hv, hsim, hwr, heq⟩ <;> rw [hE] at hsig
        · injection hsig with hh
          subst hh
          simp [heq]
        all_goals simp at hsig
      · intro sig hE hV
        rcases hbr with ⟨e2, hsig, heq⟩ | ⟨sig2, hsig, hv, heq⟩ |
          ⟨sig2, e2, hsig, hv, hsim, heq⟩ | ⟨sig2, e2, hsig, hv, hsim, hwr, heq⟩ |
          ⟨sig2, h2, hsig, hv, hsim, hwr, heq⟩ <;> rw [hE] at hsig
        · simp at hsig
        · simp [heq]
        all_goals rw [hV] at hv; simp at hv
      · intro sig e hE hV hS
        rcases hbr with ⟨e2, hsig, heq⟩ | ⟨sig2, hsig, hv, heq⟩ |
          ⟨sig2, e2, hsig, hv, hsim, heq⟩ | ⟨sig2, e2, hsig, hv, hsim, hwr, heq⟩ |
          ⟨sig2, h2, hsig, hv, hsim, hwr, heq⟩
        · rw [hE] at hsig; simp at hsig
        · rw [hV] at hv; simp at hv
        · rw [hS] at hsim
          injection hsim with hh
          subst hh
          simp [heq]
        all_goals rw [hS] at hsim; simp at hsim
      · intro sig e hE hV hS hW
        rcases hbr with ⟨e2, hsig, heq⟩ | ⟨sig2, hsig, hv, heq⟩ |
          ⟨sig2, e2, hsig, hv, hsim, heq⟩ | ⟨sig2, e2, hsig, hv, hsim, hwr, heq⟩ |
          ⟨sig2, h2, hsig, hv, hsim, hwr, heq⟩
        · rw [hE] at hsig; simp at hsig
        · rw [hV] at hv; simp at hv
        · rw [hS] at hsim; simp at hsim
        · rw [hW] at hwr
          injection hwr with hh
          subst hh
          simp [heq]
        · rw [hW] at hwr; simp at hwr
  · intro hns
    rcases htchar with ⟨-, heq⟩ | ⟨hsub, -⟩
    · exact heq
    · rw [hns] at hsub
      exact absurd hsub (by simp)
  · intro hs e hW
    rcases htchar with ⟨hsub, -⟩ | ⟨-, amt, hamt, ⟨e2, hwr, heq⟩ | ⟨h2, hwr, heq⟩⟩
    · rw [hs] at hsub
      exact absurd hsub (by simp)
    · rw [hW] at hwr
      injection hwr with hh
      subst hh
      simp [heq]
    · rw [hW] at hwr
      simp at hwr

/-- C6 witness: the deposit flow with a wallet rejection and the transfer
flow with a failed write each end with the failure message shown and no
hash recorded, via `failures_caught_and_not_retried`. -/
theorem failures_caught_and_not_retried_witness :
    (handleDepositWithPermit sampleDepositState sampleDepositEnvSignFail).alertMsg =
      some "User rejected the request." ∧
    (handleDepositWithPermit sampleDepositState sampleDepositEnvSignFail).newHash = none ∧
    (handleTransfer isAddressLower sampleTransferState sampleTransferEnvFail).status =
      some "Transaction rejected or failed" ∧
    (handleTransfer isAddressLower sampleTransferState sampleTransferEnvFail).newHash =
      none ∧
    transactionStatus false false none (some "Transaction receipt could not be found.") =
      "Receipt Error: " ++ "Transaction receipt could not be found." ∧
    transferReceiptErrorText (some "Transaction receipt could not be found.") =
      some ("Receipt Error: " ++ "Transaction receipt could not be found.") := by
  have h := failures_caught_and_not_retried sampleDepositState sampleDepositEnvSignFail
    isAddressLower sampleTransferState sampleTransferEnvFail
  have hdep := (h.2.2.1 (by decide)).1 "User rejected the request." rfl
  have htr := h.2.2.2.2.1 (by decide) "Transaction rejected or failed" rfl
  have hrec := h.2.2.2.2.2.2.1 "Transaction receipt could not be found."
  have htrec := h.2.2.2.2.2.2.2.2.1 "Transaction receipt could not be found."
  exact ⟨hdep.1, hdep.2, htr.1, htr.2, hrec, htrec⟩

end HelloViem
